import Mathlib

/-!
Verification development for the `azurerm_managed_disk` Terraform resource
(`internal/services/compute/managed_disk_resource.go`).

The Go file is a schema + CRUD resource definition.  We shallowly embed the
parts the claims are about:

* the resource wiring (`resourceManagedDisk`, lines 37-317), including the
  schema's `ForceNew` flags;
* `resourceManagedDiskCreate` (lines 319-599): validation guards, the
  `disks.Disk` payload it assembles, and the submit / read-back / SetId
  sequencing;
* `resourceManagedDiskUpdate` (lines 601-836): validation guards, the
  `disks.DiskUpdate` payload, the `shouldShutDown` flag, and the dispatch
  between the VM-shutdown path (named lock + external helper) and the plain
  `UpdateThenPoll` path.

External dependencies (the Azure SDK clients, `internal/locks`, the helper
`resourceManagedDiskUpdateWithVmShutDown`, `retrieveDiskEncryptionSetEncryptionType`,
the no-downtime-resize predicates) are modelled as oracle inputs: the embedding
takes their outcomes as values and records the calls it would make as a trace
of `ApiEvent`s.  Terraform plugin-SDK state (`d.Get`, `d.HasChange`, `d.GetOk`,
`d.GetChange`) is modelled as explicit configuration records: a `Get` result is
a field value, a `HasChange` result is a boolean in a change record, a `GetOk`
result is an `Option`.

Go `panic` (nil-pointer dereference) is modelled as a distinguished result
`StepRes.panicked`, separate from returning an `error`.
-/

/-- Case-insensitive string comparison, modelling Go `strings.EqualFold`
(ASCII is all that occurs in the compared SKU constants). -/
def strEqualFold (a b : String) : Bool :=
  a.data.map Char.toLower == b.data.map Char.toLower

/-- The possible values of `disks.DiskStorageAccountTypes` in the Azure SDK
(`PossibleValuesForDiskStorageAccountTypes`); the SDK enumerates the constants
used in the schema validation at lines 76-84. -/
def PossibleValuesForDiskStorageAccountTypes : List String :=
  ["Premium_LRS", "PremiumV2_LRS", "Premium_ZRS", "Standard_LRS",
   "StandardSSD_LRS", "StandardSSD_ZRS", "UltraSSD_LRS"]

/-- The `skuName` loop of lines 639-644 / 666-671: fold over the possible SKU
values, keeping the last one that matches case-insensitively (the zero value
`""` when none matches). -/
def lookupSkuName (sat : String) : String :=
  List.foldl (fun acc v => if strEqualFold sat v then v else acc) ""
    PossibleValuesForDiskStorageAccountTypes

/-- Result of a fallible external call returning a `bool` in Go
(`determineIfVirtualMachineSupportsNoDowntimeResize`, line 727). -/
inductive BoolOrErr where
  | err
  | ok (b : Bool)
deriving DecidableEq, Repr

/-- Value of a `BoolOrErr` with a default for the error case. -/
def BoolOrErr.getD : BoolOrErr → Bool → Bool
  | .ok b, _ => b
  | .err, d => d

/-- Result of a fallible external call returning a string-like value in Go
(`retrieveDiskEncryptionSetEncryptionType`, lines 460 and 751). -/
inductive StrOrErr where
  | err
  | ok (s : String)
deriving DecidableEq, Repr

/-- Value of a `StrOrErr` as an `Option`. -/
def StrOrErr.toOption : StrOrErr → Option String
  | .ok s => some s
  | .err => none

/-- True when a `StrOrErr` is the error case. -/
def StrOrErr.isErr : StrOrErr → Bool
  | .ok _ => false
  | .err => true

/-- The distinct `fmt.Errorf` returns of create and update (plus the errors
propagated from oracle calls).  Messages are irrelevant; identity matters. -/
inductive UErr where
  | parseIdErr
  | diskNotFound
  | getDiskErr
  | tierRequiresPremium
  | readOnlyIopsNeedsShares
  | readOnlyMbpsNeedsShares
  | throughputOnlyUltra
  | shrinkNotAllowed
  | vmResizeCheckErr
  | cmkRevert
  | encryptionSetLookupErr
  | diskAccessNeedsAllowPrivate
  | burstingNeedsPremium
  | burstingNeedsLargeDisk
  | parseVmIdErr
  | helperErr
  | updatePollErr
  | readErr
  | existingCheckErr
  | importAsExists
  | sourceUriRequired
  | storageAccountIdRequired
  | sourceResourceIdRequired
  | imageRefRequired
  | uploadSizeRequired
  | trustedLaunchCreateOption
  | securityTypeWithTrustedLaunch
  | securityTypeCreateOption
  | secureVMDiskEncryptionSetRequired
  | secureVMDiskEncryptionSetOnlyCVM
  | createPollErr
  | getAfterErr
  | modelNilErr
deriving DecidableEq, Repr

/-- Outcome of a step of the embedded Go code: normal result, returned
`error`, or a runtime panic (nil-pointer dereference). -/
inductive StepRes (α : Type) where
  | ok (a : α)
  | fail (e : UErr)
  | panicked
deriving DecidableEq, Repr

/-- Overall outcome of a CRUD callback. -/
inductive Outcome where
  | ok
  | fail (e : UErr)
  | panicked
deriving DecidableEq, Repr

/-- The external calls a CRUD callback makes, in order.  `lockVM`/`unlockVM`
are `locks.ByName`/`locks.UnlockByName` keyed by the VM name (lines 821-822);
`vmShutdownUpdate` is the delegation to the external helper
`resourceManagedDiskUpdateWithVmShutDown` (line 824); `updateThenPoll` is the
direct blocking update (line 829); `readDisk` is the final delegation to
`resourceManagedDiskRead` (lines 598 and 835). -/
inductive ApiEvent where
  | existingGet
  | createOrUpdatePoll
  | getDisk
  | lockVM (vmName : String)
  | vmShutdownUpdate
  | unlockVM (vmName : String)
  | updateThenPoll
  | readDisk
deriving DecidableEq, Repr

/-- `disks.Encryption` (lines 465-468 and 756-759): encryption type (the Go
field is named `Type`, a reserved word here) and disk encryption set id, both
optional pointers. -/
structure Encryption where
  EncType : Option String
  DiskEncryptionSetId : Option String
deriving DecidableEq, Repr

/-- `disks.DiskUpdateProperties`: the properties `resourceManagedDiskUpdate`
can write (lines 633-806).  Every field is a pointer in Go, hence an `Option`
here; `nil`/`none` means "leave the remote value unchanged". -/
structure DiskUpdateProperties where
  MaxShares : Option Int
  Tier : Option String
  DiskIOPSReadWrite : Option Int
  DiskMBpsReadWrite : Option Int
  DiskIOPSReadOnly : Option Int
  DiskMBpsReadOnly : Option Int
  OptimizedForFrequentAttach : Option Bool
  OsType : Option String
  DiskSizeGB : Option Int
  EncryptionSettingsCollection : Option Nat
  Encryption : Option Encryption
  NetworkAccessPolicy : Option String
  DiskAccessId : Option String
  PublicNetworkAccess : Option String
  BurstingEnabled : Option Bool
deriving DecidableEq, Repr

/-- `disks.DiskUpdate` (lines 633-635): properties, optional SKU, optional
tags.  The SKU is modelled by its name string. -/
structure DiskUpdate where
  Properties : DiskUpdateProperties
  Sku : Option String
  Tags : Option (List (String × String))
deriving DecidableEq, Repr

/-- The `d.HasChange` answers `resourceManagedDiskUpdate` consults. -/
structure UpdChanges where
  maxShares : Bool
  tier : Bool
  tags : Bool
  storageAccountType : Bool
  diskIopsRW : Bool
  diskMbpsRW : Bool
  diskIopsRO : Bool
  diskMbpsRO : Bool
  optimized : Bool
  osType : Bool
  diskSizeGB : Bool
  encryptionSettings : Bool
  diskEncryptionSetId : Bool
  networkAccessPolicy : Bool
  diskAccessId : Bool
  publicNetworkAccess : Bool
  onDemandBursting : Bool
deriving DecidableEq, Repr

/-- The configuration values `resourceManagedDiskUpdate` reads via `d.Get` /
`d.GetChange` (lines 610-615 and per-field blocks), plus the `d.HasChange`
record.  `diskSizeGBNew` is the current (`d.Get`) value, `diskSizeGBOld` the
old half of `d.GetChange("disk_size_gb")`. -/
structure UpdateConfig where
  maxShares : Int
  storageAccountType : String
  diskSizeGBOld : Int
  diskSizeGBNew : Int
  onDemandBurstingEnabled : Bool
  tier : String
  tags : List (String × String)
  osType : String
  optimizedFrequentAttach : Bool
  diskIopsRW : Int
  diskMbpsRW : Int
  diskIopsRO : Int
  diskMbpsRO : Int
  encryptionSettings : Nat
  diskEncryptionSetId : String
  networkAccessPolicy : String
  diskAccessId : String
  publicNetworkAccessEnabled : Bool
  ch : UpdChanges
deriving DecidableEq, Repr

/-- The part of the `disks.Disk` model read back by update: `ManagedBy`
(line 809), the id of the VM the disk is attached to, `nil` when detached. -/
structure DiskModel where
  managedBy : Option String
deriving DecidableEq, Repr

/-- Result of the initial `client.Get` of update (lines 624-631). -/
inductive GetDiskResult where
  | notFound
  | errOther
  | ok (m : DiskModel)
deriving DecidableEq, Repr

/-- Oracle outcomes of the external calls made by `resourceManagedDiskUpdate`:
id parsing, the initial read, the feature flag and no-downtime-resize
predicates (lines 723-732), the disk-encryption-set lookup (line 751), VM id
parsing (line 815, `vmNameParsed` is the parsed `VirtualMachineName`), the
shutdown helper (line 824), the direct poller (line 829) and the final
delegated read (line 835). -/
structure UpdateEnv where
  idOk : Bool
  getDisk : GetDiskResult
  expandWithoutDowntime : Bool
  requiresDetach : Bool
  diskSupportsNDR : Bool
  vmSupportsNDR : BoolOrErr
  desEncryptionType : StrOrErr
  vmNameParsed : Option String
  helperOk : Bool
  updatePollOk : Bool
  readOk : Bool
deriving DecidableEq, Repr

/-- Line 677: the update throughput block guards on
`strings.EqualFold(storageAccountType, UltraSSD_LRS)` or an exact match with
`PremiumV2_LRS`. -/
def isUltraOrPv2Upd (sat : String) : Bool :=
  strEqualFold sat "UltraSSD_LRS" || sat == "PremiumV2_LRS"

/-- Line 375: the create throughput block compares both SKUs exactly. -/
def isUltraOrPv2Create (sat : String) : Bool :=
  sat == "UltraSSD_LRS" || sat == "PremiumV2_LRS"

/-- Lines 722-733: the disk can be resized without downtime when the feature
flag is on, the disk supports it and the VM supports it (the VM check having
succeeded; its error case aborts update separately). -/
def canResizeWithoutDowntime (env : UpdateEnv) : Bool :=
  env.expandWithoutDowntime && env.diskSupportsNDR && env.vmSupportsNDR.getD false

/-- The first early return (or panic) of the payload-building part of
`resourceManagedDiskUpdate` (lines 633-806), with the guards in source order:
tier / storage-account-type check (651), read-only IOPS and MBps share checks
(691, 700), the non-Ultra throughput rejection (707), shrink rejection (740),
the no-downtime-resize VM check error (728), customer-managed-key revert
rejection (761) and encryption-set lookup error (752), the nil
`NetworkAccessPolicy` dereference (771) when only `disk_access_id` changed,
the `disk_access_id` policy check (774), and the on-demand-bursting checks
(795, 799).  `.ok ()` means no guard fired. -/
def updFirstFault (cfg : UpdateConfig) (env : UpdateEnv) : StepRes Unit :=
  if cfg.ch.tier ∧ cfg.storageAccountType ≠ "Premium_ZRS" ∧
      cfg.storageAccountType ≠ "Premium_LRS" then
    .fail .tierRequiresPremium
  else if isUltraOrPv2Upd cfg.storageAccountType ∧ cfg.ch.diskIopsRO ∧
      cfg.maxShares = 0 then
    .fail .readOnlyIopsNeedsShares
  else if isUltraOrPv2Upd cfg.storageAccountType ∧ cfg.ch.diskMbpsRO ∧
      cfg.maxShares = 0 then
    .fail .readOnlyMbpsNeedsShares
  else if ¬ isUltraOrPv2Upd cfg.storageAccountType ∧
      (cfg.ch.diskIopsRW ∨ cfg.ch.diskMbpsRW ∨ cfg.ch.diskIopsRO ∨
        cfg.ch.diskMbpsRO) then
    .fail .throughputOnlyUltra
  else if cfg.ch.diskSizeGB ∧ ¬ (cfg.diskSizeGBNew > cfg.diskSizeGBOld) then
    .fail .shrinkNotAllowed
  else if cfg.ch.diskSizeGB ∧ env.expandWithoutDowntime ∧
      env.vmSupportsNDR = .err then
    .fail .vmResizeCheckErr
  else if cfg.ch.diskEncryptionSetId ∧ cfg.diskEncryptionSetId = "" then
    .fail .cmkRevert
  else if cfg.ch.diskEncryptionSetId ∧ cfg.diskEncryptionSetId ≠ "" ∧
      env.desEncryptionType = .err then
    .fail .encryptionSetLookupErr
  else if cfg.ch.diskAccessId ∧ ¬ cfg.ch.networkAccessPolicy then
    .panicked
  else if cfg.ch.diskAccessId ∧ cfg.networkAccessPolicy ≠ "AllowPrivate" ∧
      cfg.diskAccessId ≠ "" then
    .fail .diskAccessNeedsAllowPrivate
  else if cfg.onDemandBurstingEnabled ∧ cfg.storageAccountType ≠ "Premium_LRS" ∧
      cfg.storageAccountType ≠ "Premium_ZRS" then
    .fail .burstingNeedsPremium
  else if cfg.onDemandBurstingEnabled ∧ cfg.diskSizeGBNew ≠ 0 ∧
      cfg.diskSizeGBNew ≤ 512 then
    .fail .burstingNeedsLargeDisk
  else
    .ok ()

/-- The `disks.DiskUpdate` payload built by lines 633-806 when no guard fires.
Each field is written exactly under its `d.HasChange` condition; the writes
touch pairwise distinct fields (the SKU is written identically by the
`max_shares` block at 639-647 and the `storage_account_type` block at
665-674).  `DiskAccessId` is written at 772 only after the (panic-guarded)
dereference of `NetworkAccessPolicy`, which on the fault-free path equals
`some cfg.networkAccessPolicy` and requires `ch.networkAccessPolicy`;
`Encryption.Type` at 757 is the successful oracle value. -/
def updPayload (cfg : UpdateConfig) (env : UpdateEnv) : DiskUpdate where
  Properties :=
    { MaxShares := if cfg.ch.maxShares then some cfg.maxShares else none
      Tier := if cfg.ch.tier then some cfg.tier else none
      DiskIOPSReadWrite :=
        if isUltraOrPv2Upd cfg.storageAccountType ∧ cfg.ch.diskIopsRW then
          some cfg.diskIopsRW else none
      DiskMBpsReadWrite :=
        if isUltraOrPv2Upd cfg.storageAccountType ∧ cfg.ch.diskMbpsRW then
          some cfg.diskMbpsRW else none
      DiskIOPSReadOnly :=
        if isUltraOrPv2Upd cfg.storageAccountType ∧ cfg.ch.diskIopsRO then
          some cfg.diskIopsRO else none
      DiskMBpsReadOnly :=
        if isUltraOrPv2Upd cfg.storageAccountType ∧ cfg.ch.diskMbpsRO then
          some cfg.diskMbpsRO else none
      OptimizedForFrequentAttach :=
        if cfg.ch.optimized then some cfg.optimizedFrequentAttach else none
      OsType := if cfg.ch.osType then some cfg.osType else none
      DiskSizeGB := if cfg.ch.diskSizeGB then some cfg.diskSizeGBNew else none
      EncryptionSettingsCollection :=
        if cfg.ch.encryptionSettings then some cfg.encryptionSettings else none
      Encryption :=
        if cfg.ch.diskEncryptionSetId then
          some { EncType := env.desEncryptionType.toOption
                 DiskEncryptionSetId := some cfg.diskEncryptionSetId }
        else none
      NetworkAccessPolicy :=
        if cfg.ch.networkAccessPolicy then some cfg.networkAccessPolicy else none
      DiskAccessId :=
        if cfg.ch.diskAccessId ∧ cfg.ch.networkAccessPolicy ∧
            cfg.networkAccessPolicy = "AllowPrivate" then
          some cfg.diskAccessId
        else none
      PublicNetworkAccess :=
        if cfg.ch.publicNetworkAccess then
          some (if cfg.publicNetworkAccessEnabled then "Enabled" else "Disabled")
        else none
      BurstingEnabled :=
        if cfg.ch.onDemandBursting then some cfg.onDemandBurstingEnabled
        else none }
  Sku :=
    if cfg.ch.maxShares ∨ cfg.ch.storageAccountType then
      some (lookupSkuName cfg.storageAccountType)
    else none
  Tags := if cfg.ch.tags then some cfg.tags else none

/-- The `shouldShutDown` flag after lines 633-806: set by a tier change (654),
a storage-account-type change (665), a size increase that cannot be resized
without downtime (736), a disk-encryption-set change (749) and an
on-demand-bursting change (804). -/
def updShouldShutDown (cfg : UpdateConfig) (env : UpdateEnv) : Bool :=
  cfg.ch.tier || cfg.ch.storageAccountType ||
    (cfg.ch.diskSizeGB && ! canResizeWithoutDowntime env) ||
    cfg.ch.diskEncryptionSetId || cfg.ch.onDemandBursting

/-- The `shouldDetach` flag: set at line 724 only when the size changed and
the expand-without-downtime feature flag is on. -/
def updShouldDetach (cfg : UpdateConfig) (env : UpdateEnv) : Bool :=
  cfg.ch.diskSizeGB && env.expandWithoutDowntime && env.requiresDetach

/-- State after the payload-building part of update: the payload and the two
control flags. -/
structure BSt where
  u : DiskUpdate
  ssd : Bool
  sdet : Bool
deriving DecidableEq, Repr

/-- Lines 633-806 of `resourceManagedDiskUpdate` as a whole: the first guard
fault if any, otherwise the assembled payload and flags. -/
def buildDiskUpdate (cfg : UpdateConfig) (env : UpdateEnv) : StepRes BSt :=
  match updFirstFault cfg env with
  | .fail e => .fail e
  | .panicked => .panicked
  | .ok _ =>
      .ok { u := updPayload cfg env
            ssd := updShouldShutDown cfg env
            sdet := updShouldDetach cfg env }

/-- `resourceManagedDiskUpdate` (lines 601-836): parse the id, read the disk,
build the payload, then dispatch.  Lines 809-811 clear `shouldShutDown` when
the disk is not attached; lines 814-827 parse the VM id, take the named lock,
delegate to the shutdown helper and (by `defer`) release the lock after the
final read; lines 828-833 are the direct `UpdateThenPoll` path. -/
def resourceManagedDiskUpdate (cfg : UpdateConfig) (env : UpdateEnv) :
    List ApiEvent × Outcome :=
  if env.idOk then
    match env.getDisk with
    | .notFound => ([.getDisk], .fail .diskNotFound)
    | .errOther => ([.getDisk], .fail .getDiskErr)
    | .ok dm =>
        match buildDiskUpdate cfg env with
        | .fail e => ([.getDisk], .fail e)
        | .panicked => ([.getDisk], .panicked)
        | .ok st =>
            if st.ssd && dm.managedBy.isSome then
              match dm.managedBy with
              | some _ =>
                  match env.vmNameParsed with
                  | none => ([.getDisk], .fail .parseVmIdErr)
                  | some vmName =>
                      if env.helperOk then
                        ([.getDisk, .lockVM vmName, .vmShutdownUpdate,
                          .readDisk, .unlockVM vmName],
                         if env.readOk then .ok else .fail .readErr)
                      else
                        ([.getDisk, .lockVM vmName, .vmShutdownUpdate,
                          .unlockVM vmName], .fail .helperErr)
              | none => ([.getDisk], .panicked)
            else
              if env.updatePollOk then
                ([.getDisk, .updateThenPoll, .readDisk],
                 if env.readOk then .ok else .fail .readErr)
              else
                ([.getDisk, .updateThenPoll], .fail .updatePollErr)
  else ([], .fail .parseIdErr)

/-- The `d.HasChange` answers `resourceManagedDiskCreate` consults (lines
376, 382, 407 and 473). -/
structure CreateChanges where
  diskIopsRW : Bool
  diskMbpsRW : Bool
  diskIopsRO : Bool
  diskMbpsRO : Bool
  logicalSectorSize : Bool
  diskAccessId : Bool
deriving DecidableEq, Repr

/-- The configuration `resourceManagedDiskCreate` reads (lines 327-581).
`d.GetOk` reads are `Option`s (`none` when the value is unset/zero);
plain `d.Get` reads are values. -/
structure CreateConfig where
  name : String
  location : String
  createOption : String
  storageAccountType : String
  osType : String
  maxShares : Int
  tags : List (String × String)
  performancePlusEnabled : Bool
  optimizedFrequentAttach : Bool
  diskSizeGB : Int
  diskIopsRW : Int
  diskMbpsRW : Int
  diskIopsRO : Option Int
  diskMbpsRO : Option Int
  logicalSectorSize : Option Int
  sourceUri : String
  sourceResourceId : String
  storageAccountId : String
  imageReferenceId : String
  galleryImageReferenceId : String
  uploadSizeBytes : Int
  encryptionSettings : Option Nat
  diskEncryptionSetId : String
  networkAccessPolicy : String
  diskAccessId : String
  publicNetworkAccessEnabled : Bool
  tier : String
  trustedLaunchEnabled : Bool
  securityType : String
  secureVMDiskEncryptionSetId : String
  onDemandBurstingEnabled : Bool
  hyperVGeneration : Option String
  edgeZone : String
  zone : Option String
  ch : CreateChanges
deriving DecidableEq, Repr

/-- Result of the existence check of lines 331-342. -/
inductive ExistingCheck where
  | notFound
  | found
  | errOther
deriving DecidableEq, Repr

/-- Result of the read-back `client.Get` after create (lines 588-594):
error, success with a nil model, or success with a model. -/
inductive GetModel where
  | err
  | okNone
  | okSome
deriving DecidableEq, Repr

/-- Oracle outcomes of the external calls of `resourceManagedDiskCreate`:
`d.IsNewResource` and the existence check (lines 331-342), the
disk-encryption-set lookup (line 460), `CreateOrUpdateThenPoll` (line 583),
the read-back `Get` (line 588) and the final delegated read (line 598). -/
structure CreateEnv where
  isNew : Bool
  existing : ExistingCheck
  desEncryptionType : StrOrErr
  createPollOk : Bool
  getAfter : GetModel
  readOk : Bool
deriving DecidableEq, Repr

/-- `disks.CreationData` (lines 355-358 and later writes). -/
structure CreationData where
  CreateOption : String
  PerformancePlus : Option Bool
  LogicalSectorSize : Option Int
  StorageAccountId : Option String
  SourceUri : Option String
  SourceResourceId : Option String
  ImageReference : Option String
  GalleryImageReference : Option String
  UploadSizeBytes : Option Int
deriving DecidableEq, Repr

/-- `disks.DiskSecurityProfile` (lines 501-503, 534-536, 543). -/
structure DiskSecurityProfile where
  SecurityType : Option String
  SecureVMDiskEncryptionSetId : Option String
deriving DecidableEq, Repr

/-- `disks.DiskProperties` as assembled by create (lines 354-564). -/
structure DiskProperties where
  CreationData : CreationData
  OptimizedForFrequentAttach : Option Bool
  OsType : Option String
  Encryption : Option Encryption
  DiskSizeGB : Option Int
  MaxShares : Option Int
  DiskIOPSReadWrite : Option Int
  DiskMBpsReadWrite : Option Int
  DiskIOPSReadOnly : Option Int
  DiskMBpsReadOnly : Option Int
  EncryptionSettingsCollection : Option Nat
  NetworkAccessPolicy : Option String
  DiskAccessId : Option String
  PublicNetworkAccess : Option String
  Tier : Option String
  SecurityProfile : Option DiskSecurityProfile
  BurstingEnabled : Option Bool
  HyperVGeneration : Option String
deriving DecidableEq, Repr

/-- `disks.Disk` (lines 566-581): the create request body. -/
structure Disk where
  Name : String
  Location : String
  EdgeZone : String
  Properties : DiskProperties
  Sku : Option String
  Tags : List (String × String)
  Zones : Option (List String)
deriving DecidableEq, Repr

/-- The create-option string sets used by create (lines 411, 425, 433, 447,
505-511, 521-527). -/
def isImportOption (co : String) : Bool :=
  co == "Import" || co == "ImportSecure"

/-- Copy/Restore create options (line 425). -/
def isCopyRestoreOption (co : String) : Bool :=
  co == "Copy" || co == "Restore"

/-- Create options compatible with trusted launch and with a security type
(lines 505-511 and 521-527). -/
def isSecuritySupportedOption (co : String) : Bool :=
  co == "FromImage" || co == "Import" || co == "ImportSecure"

/-- The first early return of the payload-building part of
`resourceManagedDiskCreate` (lines 344-581), with the guards in source order:
read-only IOPS/MBps share checks (389, 397), the non-Ultra throughput
rejection (407), `source_uri`/`storage_account_id` for Import (413, 418),
`source_resource_id` for Copy/Restore (427), an image reference for FromImage
(443), `upload_size_bytes` for Upload (451), the encryption-set lookup error
(461), the `disk_access_id` policy check (477), the tier SKU check (493),
the trusted-launch create-option check (510), the security-type checks (518,
526, 530), the secure-VM encryption-set check (541), and the
on-demand-bursting checks (551, 555).  `.ok ()` means no guard fired. -/
def createFirstFault (cfg : CreateConfig) (env : CreateEnv) : StepRes Unit :=
  if isUltraOrPv2Create cfg.storageAccountType ∧ cfg.diskIopsRO.isSome ∧
      cfg.maxShares = 0 then
    .fail .readOnlyIopsNeedsShares
  else if isUltraOrPv2Create cfg.storageAccountType ∧ cfg.diskMbpsRO.isSome ∧
      cfg.maxShares = 0 then
    .fail .readOnlyMbpsNeedsShares
  else if ¬ isUltraOrPv2Create cfg.storageAccountType ∧
      (cfg.ch.diskIopsRW ∨ cfg.ch.diskMbpsRW ∨ cfg.ch.diskIopsRO ∨
        cfg.ch.diskMbpsRO ∨ cfg.ch.logicalSectorSize) then
    .fail .throughputOnlyUltra
  else if isImportOption cfg.createOption ∧ cfg.sourceUri = "" then
    .fail .sourceUriRequired
  else if isImportOption cfg.createOption ∧ cfg.storageAccountId = "" then
    .fail .storageAccountIdRequired
  else if isCopyRestoreOption cfg.createOption ∧ cfg.sourceResourceId = "" then
    .fail .sourceResourceIdRequired
  else if cfg.createOption = "FromImage" ∧ cfg.imageReferenceId = "" ∧
      cfg.galleryImageReferenceId = "" then
    .fail .imageRefRequired
  else if cfg.createOption = "Upload" ∧ cfg.uploadSizeBytes = 0 then
    .fail .uploadSizeRequired
  else if cfg.diskEncryptionSetId ≠ "" ∧ env.desEncryptionType = .err then
    .fail .encryptionSetLookupErr
  else if cfg.ch.diskAccessId ∧ cfg.networkAccessPolicy ≠ "AllowPrivate" ∧
      cfg.diskAccessId ≠ "" then
    .fail .diskAccessNeedsAllowPrivate
  else if cfg.tier ≠ "" ∧ cfg.storageAccountType ≠ "Premium_ZRS" ∧
      cfg.storageAccountType ≠ "Premium_LRS" then
    .fail .tierRequiresPremium
  else if cfg.trustedLaunchEnabled ∧
      ¬ isSecuritySupportedOption cfg.createOption then
    .fail .trustedLaunchCreateOption
  else if cfg.securityType ≠ "" ∧ cfg.trustedLaunchEnabled then
    .fail .securityTypeWithTrustedLaunch
  else if cfg.securityType ≠ "" ∧
      ¬ isSecuritySupportedOption cfg.createOption then
    .fail .securityTypeCreateOption
  else if cfg.securityType = "ConfidentialVM_DiskEncryptedWithCustomerKey" ∧
      cfg.secureVMDiskEncryptionSetId = "" then
    .fail .secureVMDiskEncryptionSetRequired
  else if cfg.secureVMDiskEncryptionSetId ≠ "" ∧
      cfg.securityType ≠ "ConfidentialVM_DiskEncryptedWithCustomerKey" then
    .fail .secureVMDiskEncryptionSetOnlyCVM
  else if cfg.onDemandBurstingEnabled ∧ cfg.storageAccountType ≠ "Premium_LRS" ∧
      cfg.storageAccountType ≠ "Premium_ZRS" then
    .fail .burstingNeedsPremium
  else if cfg.onDemandBurstingEnabled ∧ cfg.diskSizeGB ≠ 0 ∧
      cfg.diskSizeGB ≤ 512 then
    .fail .burstingNeedsLargeDisk
  else
    .ok ()

/-- The `disks.Disk` body assembled by lines 344-581 when no guard fires.
Initial values are from lines 354-364 (platform-key encryption, os type,
optimized-for-frequent-attach, performance-plus); each later write mirrors its
conditional block.  The `SecurityProfile` is written by the trusted-launch
block (501) and overwritten whole by the security-type block (534) with the
secure-VM id added at 543; on the fault-free path a non-empty
`secure_vm_disk_encryption_set_id` implies the security type is the
customer-key confidential-VM one, so the profile is present. -/
def createDiskBody (cfg : CreateConfig) (env : CreateEnv) : Disk where
  Name := cfg.name
  Location := cfg.location
  EdgeZone := cfg.edgeZone
  Properties :=
    { CreationData :=
        { CreateOption := cfg.createOption
          PerformancePlus := some cfg.performancePlusEnabled
          LogicalSectorSize :=
            if isUltraOrPv2Create cfg.storageAccountType then
              cfg.logicalSectorSize
            else none
          StorageAccountId :=
            if isImportOption cfg.createOption then some cfg.storageAccountId
            else none
          SourceUri :=
            if isImportOption cfg.createOption then some cfg.sourceUri
            else none
          SourceResourceId :=
            if isCopyRestoreOption cfg.createOption then
              some cfg.sourceResourceId
            else none
          ImageReference :=
            if cfg.createOption = "FromImage" ∧ cfg.imageReferenceId ≠ "" then
              some cfg.imageReferenceId
            else none
          GalleryImageReference :=
            if cfg.createOption = "FromImage" ∧ cfg.imageReferenceId = "" ∧
                cfg.galleryImageReferenceId ≠ "" then
              some cfg.galleryImageReferenceId
            else none
          UploadSizeBytes :=
            if cfg.createOption = "Upload" then some cfg.uploadSizeBytes
            else none }
      OptimizedForFrequentAttach := some cfg.optimizedFrequentAttach
      OsType := some cfg.osType
      Encryption :=
        if cfg.diskEncryptionSetId ≠ "" then
          some { EncType := env.desEncryptionType.toOption
                 DiskEncryptionSetId := some cfg.diskEncryptionSetId }
        else
          some { EncType := some "EncryptionAtRestWithPlatformKey"
                 DiskEncryptionSetId := none }
      DiskSizeGB := if cfg.diskSizeGB ≠ 0 then some cfg.diskSizeGB else none
      MaxShares := if cfg.maxShares ≠ 0 then some cfg.maxShares else none
      DiskIOPSReadWrite :=
        if isUltraOrPv2Create cfg.storageAccountType ∧ cfg.ch.diskIopsRW then
          some cfg.diskIopsRW
        else none
      DiskMBpsReadWrite :=
        if isUltraOrPv2Create cfg.storageAccountType ∧ cfg.ch.diskMbpsRW then
          some cfg.diskMbpsRW
        else none
      DiskIOPSReadOnly :=
        if isUltraOrPv2Create cfg.storageAccountType then cfg.diskIopsRO
        else none
      DiskMBpsReadOnly :=
        if isUltraOrPv2Create cfg.storageAccountType then cfg.diskMbpsRO
        else none
      EncryptionSettingsCollection := cfg.encryptionSettings
      NetworkAccessPolicy := some cfg.networkAccessPolicy
      DiskAccessId :=
        if cfg.ch.diskAccessId ∧ cfg.networkAccessPolicy = "AllowPrivate" then
          some cfg.diskAccessId
        else none
      PublicNetworkAccess :=
        some (if cfg.publicNetworkAccessEnabled then "Enabled" else "Disabled")
      Tier := if cfg.tier ≠ "" then some cfg.tier else none
      SecurityProfile :=
        if cfg.securityType ≠ "" then
          some { SecurityType := some cfg.securityType
                 SecureVMDiskEncryptionSetId :=
                   if cfg.secureVMDiskEncryptionSetId ≠ "" then
                     some cfg.secureVMDiskEncryptionSetId
                   else none }
        else if cfg.trustedLaunchEnabled then
          some { SecurityType := some "TrustedLaunch"
                 SecureVMDiskEncryptionSetId := none }
        else none
      BurstingEnabled :=
        if cfg.onDemandBurstingEnabled then some true else none
      HyperVGeneration := cfg.hyperVGeneration }
  Sku := some cfg.storageAccountType
  Tags := cfg.tags
  Zones := cfg.zone.map (fun z => [z])

/-- Lines 344-581 of `resourceManagedDiskCreate` as a whole: the first guard
fault if any, otherwise the assembled request body. -/
def buildCreateDisk (cfg : CreateConfig) (env : CreateEnv) : StepRes Disk :=
  match createFirstFault cfg env with
  | .fail e => .fail e
  | .panicked => .panicked
  | .ok _ => .ok (createDiskBody cfg env)

/-- Result of `resourceManagedDiskCreate`: the call trace, the outcome, and
whether `d.SetId` was reached (line 596). -/
structure CreateResult where
  trace : List ApiEvent
  outcome : Outcome
  idSet : Bool
deriving DecidableEq, Repr

/-- `resourceManagedDiskCreate` (lines 319-599): existence check for a new
resource (331-342), payload building (344-581), a single blocking
`CreateOrUpdateThenPoll` (583), the read-back `Get` and nil-model check
(588-594), `d.SetId` (596) and the delegated read (598). -/
def resourceManagedDiskCreate (cfg : CreateConfig) (env : CreateEnv) :
    CreateResult :=
  let pre : List ApiEvent := if env.isNew then [.existingGet] else []
  if env.isNew ∧ env.existing = .errOther then
    { trace := pre, outcome := .fail .existingCheckErr, idSet := false }
  else if env.isNew ∧ env.existing = .found then
    { trace := pre, outcome := .fail .importAsExists, idSet := false }
  else
    match buildCreateDisk cfg env with
    | .fail e => { trace := pre, outcome := .fail e, idSet := false }
    | .panicked => { trace := pre, outcome := .panicked, idSet := false }
    | .ok _ =>
        if env.createPollOk then
          match env.getAfter with
          | .err =>
              { trace := pre ++ [.createOrUpdatePoll, .getDisk]
                outcome := .fail .getAfterErr, idSet := false }
          | .okNone =>
              { trace := pre ++ [.createOrUpdatePoll, .getDisk]
                outcome := .fail .modelNilErr, idSet := false }
          | .okSome =>
              { trace := pre ++ [.createOrUpdatePoll, .getDisk, .readDisk]
                outcome := if env.readOk then .ok else .fail .readErr
                idSet := true }
        else
          { trace := pre ++ [.createOrUpdatePoll]
            outcome := .fail .createPollErr, idSet := false }

/-- One schema entry: field name and its `ForceNew` flag (lines 62-308).
Entries built by `commonschema` helpers carry the flag their constructor name
states (`EdgeZoneOptionalForceNew`, `ZoneSingleOptionalForceNew`,
`Location` and `ResourceGroupName` are ForceNew, `Tags` is not);
`encryption_settings` is not ForceNew in the schema (a conditional ForceNew
is added by the CustomizeDiff at lines 311-315). -/
structure SchemaEntry where
  name : String
  forceNew : Bool
deriving DecidableEq, Repr

/-- The `azurerm_managed_disk` schema (lines 62-308), field by field in source
order, with each field's `ForceNew` flag. -/
def managedDiskSchema : List SchemaEntry :=
  [⟨"name", true⟩,
   ⟨"location", true⟩,
   ⟨"resource_group_name", true⟩,
   ⟨"storage_account_type", false⟩,
   ⟨"create_option", true⟩,
   ⟨"edge_zone", true⟩,
   ⟨"logical_sector_size", true⟩,
   ⟨"optimized_frequent_attach_enabled", false⟩,
   ⟨"performance_plus_enabled", true⟩,
   ⟨"source_uri", true⟩,
   ⟨"source_resource_id", true⟩,
   ⟨"storage_account_id", true⟩,
   ⟨"image_reference_id", true⟩,
   ⟨"gallery_image_reference_id", true⟩,
   ⟨"os_type", false⟩,
   ⟨"disk_size_gb", false⟩,
   ⟨"upload_size_bytes", true⟩,
   ⟨"disk_iops_read_write", false⟩,
   ⟨"disk_mbps_read_write", false⟩,
   ⟨"disk_iops_read_only", false⟩,
   ⟨"disk_mbps_read_only", false⟩,
   ⟨"disk_encryption_set_id", false⟩,
   ⟨"encryption_settings", false⟩,
   ⟨"network_access_policy", false⟩,
   ⟨"disk_access_id", false⟩,
   ⟨"public_network_access_enabled", false⟩,
   ⟨"tier", false⟩,
   ⟨"max_shares", false⟩,
   ⟨"trusted_launch_enabled", true⟩,
   ⟨"secure_vm_disk_encryption_set_id", true⟩,
   ⟨"security_type", true⟩,
   ⟨"hyper_v_generation", true⟩,
   ⟨"on_demand_bursting_enabled", false⟩,
   ⟨"zone", true⟩,
   ⟨"tags", false⟩]

/-- The `ForceNew` flag of a schema field. -/
def schemaForceNew (f : String) : Option Bool :=
  (managedDiskSchema.find? (fun e => e.name == f)).map SchemaEntry.forceNew

/-- The configuration fields whose values or diffs `resourceManagedDiskUpdate`
writes into the `DiskUpdate` payload (lines 633-806): every
`diskUpdate.Properties.X = ...`, `diskUpdate.Sku = ...` or
`diskUpdate.Tags = ...` assignment is driven by exactly these fields. -/
def updatePayloadSourceFields : List String :=
  ["max_shares", "storage_account_type", "tier", "tags",
   "disk_iops_read_write", "disk_mbps_read_write",
   "disk_iops_read_only", "disk_mbps_read_only",
   "optimized_frequent_attach_enabled", "os_type", "disk_size_gb",
   "encryption_settings", "disk_encryption_set_id", "network_access_policy",
   "disk_access_id", "public_network_access_enabled",
   "on_demand_bursting_enabled"]

/-- The CRUD callbacks wired into the resource (lines 39-42). -/
inductive CrudFn where
  | managedDiskCreate
  | managedDiskRead
  | managedDiskUpdate
  | managedDiskDelete
deriving DecidableEq, Repr

/-- The `pluginsdk.Resource` wiring (lines 37-317): CRUD callbacks, schema
version and state upgraders, the identity-validating importer and the
generated identity schema (both keyed by the id type they are built from),
and the field schema. -/
structure Resource where
  Create : Option CrudFn
  Read : Option CrudFn
  Update : Option CrudFn
  Delete : Option CrudFn
  SchemaVersion : Nat
  StateUpgraders : List (Nat × String)
  ImporterIdType : Option String
  IdentitySchemaIdType : Option String
  Schema : List SchemaEntry
deriving DecidableEq, Repr

/-- `resourceManagedDisk` (lines 37-317): the resource definition.  The
importer is `pluginsdk.ImporterValidatingIdentity(&commonids.ManagedDiskId{})`
(line 49), the identity schema is
`pluginsdk.GenerateIdentitySchema(&commonids.ManagedDiskId{})` (line 52), and
the state upgrader map is `{0: migration.ManagedDiskV0ToV1{}}` with
`SchemaVersion: 1` (lines 44-47). -/
def resourceManagedDisk : Resource where
  Create := some .managedDiskCreate
  Read := some .managedDiskRead
  Update := some .managedDiskUpdate
  Delete := some .managedDiskDelete
  SchemaVersion := 1
  StateUpgraders := [(0, "ManagedDiskV0ToV1")]
  ImporterIdType := some "ManagedDiskId"
  IdentitySchemaIdType := some "ManagedDiskId"
  Schema := managedDiskSchema

/-- Inversion for a successful payload build: no guard fired and the result is
the assembled payload with the two flags. -/
theorem buildDiskUpdate_ok {cfg : UpdateConfig} {env : UpdateEnv} {st : BSt}
    (h : buildDiskUpdate cfg env = .ok st) :
    st = ⟨updPayload cfg env, updShouldShutDown cfg env, updShouldDetach cfg env⟩ ∧
      updFirstFault cfg env = .ok () := by
  unfold buildDiskUpdate at h
  cases hf : updFirstFault cfg env <;> rw [hf] at h <;> simp_all

/-- A guard fault in the payload build aborts the update right after the
initial read: no lock, no helper, no poller call. -/
theorem update_dispatch_fail {cfg : UpdateConfig} {env : UpdateEnv}
    {dm : DiskModel} {e : UErr} (hid : env.idOk = true)
    (hget : env.getDisk = .ok dm) (hf : updFirstFault cfg env = .fail e) :
    resourceManagedDiskUpdate cfg env = ([.getDisk], .fail e) := by
  unfold resourceManagedDiskUpdate buildDiskUpdate
  rw [hid, hget, hf]
  rfl

/-- A config with every `HasChange` answer false. -/
def updChNone : UpdChanges where
  maxShares := false
  tier := false
  tags := false
  storageAccountType := false
  diskIopsRW := false
  diskMbpsRW := false
  diskIopsRO := false
  diskMbpsRO := false
  optimized := false
  osType := false
  diskSizeGB := false
  encryptionSettings := false
  diskEncryptionSetId := false
  networkAccessPolicy := false
  diskAccessId := false
  publicNetworkAccess := false
  onDemandBursting := false

/-- A benign update configuration: premium disk, no diffs. -/
def updCfg0 : UpdateConfig where
  maxShares := 0
  storageAccountType := "Premium_LRS"
  diskSizeGBOld := 100
  diskSizeGBNew := 100
  onDemandBurstingEnabled := false
  tier := ""
  tags := []
  osType := ""
  optimizedFrequentAttach := false
  diskIopsRW := 0
  diskMbpsRW := 0
  diskIopsRO := 0
  diskMbpsRO := 0
  encryptionSettings := 0
  diskEncryptionSetId := ""
  networkAccessPolicy := "AllowAll"
  diskAccessId := ""
  publicNetworkAccessEnabled := true
  ch := updChNone

/-- A benign update environment: the id parses, the disk is read back
detached, every oracle succeeds. -/
def updEnv0 : UpdateEnv where
  idOk := true
  getDisk := .ok ⟨none⟩
  expandWithoutDowntime := false
  requiresDetach := false
  diskSupportsNDR := false
  vmSupportsNDR := .ok false
  desEncryptionType := .ok "EncryptionAtRestWithCustomerKey"
  vmNameParsed := none
  helperOk := true
  updatePollOk := true
  readOk := true

/-- An update whose only diff is `disk_access_id`. -/
def updCfgAccessOnly : UpdateConfig :=
  { updCfg0 with
    diskAccessId := "disk-access-1"
    ch := { updChNone with diskAccessId := true } }

/-- C2: the claim says the update never panics because the
`NetworkAccessPolicy` pointer of the `DiskUpdate` payload is non-nil whenever
`disk_access_id` changed, in particular when `network_access_policy` did not
change.  The code contradicts this: on an update whose only diff is
`disk_access_id`, line 771 dereferences
`diskUpdate.Properties.NetworkAccessPolicy`, which was only assigned (line
766) under `d.HasChange("network_access_policy")`, so the dereference is of a
nil pointer and the update panics after the initial read. -/
theorem managed_disk_update_disk_access_nil_panic :
    resourceManagedDiskUpdate updCfgAccessOnly updEnv0 =
      ([.getDisk], .panicked) := by
  decide

/-- C6: every schema field the claim lists as `ForceNew` carries the flag in
the schema, and none of them is among the configuration fields the update
operation writes into the `DiskUpdate` payload — a change to any of them is
resource replacement, never an in-place update. -/
theorem managed_disk_force_new_fields_not_updated :
    (["name", "create_option", "edge_zone", "logical_sector_size",
      "performance_plus_enabled", "source_uri", "source_resource_id",
      "storage_account_id", "image_reference_id", "gallery_image_reference_id",
      "upload_size_bytes", "trusted_launch_enabled",
      "secure_vm_disk_encryption_set_id", "security_type",
      "hyper_v_generation", "zone"].all
      (fun f => (schemaForceNew f == some true) &&
        ! (updatePayloadSourceFields.contains f))) = true := by
  decide

/-- C10: the resource definition wires all four CRUD callbacks, an importer
validating the managed-disk identity, an identity schema generated from the
`ManagedDiskId` type, and a version-0-to-1 state upgrader with
`SchemaVersion` 1. -/
theorem managed_disk_resource_wiring :
    resourceManagedDisk.Create = some CrudFn.managedDiskCreate ∧
    resourceManagedDisk.Read = some CrudFn.managedDiskRead ∧
    resourceManagedDisk.Update = some CrudFn.managedDiskUpdate ∧
    resourceManagedDisk.Delete = some CrudFn.managedDiskDelete ∧
    resourceManagedDisk.ImporterIdType = some "ManagedDiskId" ∧
    resourceManagedDisk.IdentitySchemaIdType = some "ManagedDiskId" ∧
    resourceManagedDisk.SchemaVersion = 1 ∧
    resourceManagedDisk.StateUpgraders = [(0, "ManagedDiskV0ToV1")] := by
  refine ⟨rfl, rfl, rfl, rfl, rfl, rfl, rfl, rfl⟩


/-- Inversion for a fault-free pass through the update guards: every guard
condition of `updFirstFault` is false. -/
theorem updFirstFault_ok_inv {cfg : UpdateConfig} {env : UpdateEnv}
    (h : updFirstFault cfg env = .ok ()) :
    ¬ (cfg.ch.tier ∧ cfg.storageAccountType ≠ "Premium_ZRS" ∧
        cfg.storageAccountType ≠ "Premium_LRS") ∧
    ¬ (isUltraOrPv2Upd cfg.storageAccountType ∧ cfg.ch.diskIopsRO ∧
        cfg.maxShares = 0) ∧
    ¬ (isUltraOrPv2Upd cfg.storageAccountType ∧ cfg.ch.diskMbpsRO ∧
        cfg.maxShares = 0) ∧
    ¬ (¬ isUltraOrPv2Upd cfg.storageAccountType ∧
        (cfg.ch.diskIopsRW ∨ cfg.ch.diskMbpsRW ∨ cfg.ch.diskIopsRO ∨
          cfg.ch.diskMbpsRO)) ∧
    ¬ (cfg.ch.diskSizeGB ∧ ¬ (cfg.diskSizeGBNew > cfg.diskSizeGBOld)) ∧
    ¬ (cfg.ch.diskSizeGB ∧ env.expandWithoutDowntime ∧
        env.vmSupportsNDR = .err) ∧
    ¬ (cfg.ch.diskEncryptionSetId ∧ cfg.diskEncryptionSetId = "") ∧
    ¬ (cfg.ch.diskEncryptionSetId ∧ cfg.diskEncryptionSetId ≠ "" ∧
        env.desEncryptionType = .err) ∧
    ¬ (cfg.ch.diskAccessId ∧ ¬ cfg.ch.networkAccessPolicy) ∧
    ¬ (cfg.ch.diskAccessId ∧ cfg.networkAccessPolicy ≠ "AllowPrivate" ∧
        cfg.diskAccessId ≠ "") ∧
    ¬ (cfg.onDemandBurstingEnabled ∧ cfg.storageAccountType ≠ "Premium_LRS" ∧
        cfg.storageAccountType ≠ "Premium_ZRS") ∧
    ¬ (cfg.onDemandBurstingEnabled ∧ cfg.diskSizeGBNew ≠ 0 ∧
        cfg.diskSizeGBNew ≤ 512) := by
  unfold updFirstFault at h
  by_cases c1 : (cfg.ch.tier ∧ cfg.storageAccountType ≠ "Premium_ZRS" ∧
    cfg.storageAccountType ≠ "Premium_LRS")
  · rw [if_pos c1] at h
    exact StepRes.noConfusion h
  · rw [if_neg c1] at h
    by_cases c2 : (isUltraOrPv2Upd cfg.storageAccountType ∧ cfg.ch.diskIopsRO ∧
      cfg.maxShares = 0)
    · rw [if_pos c2] at h
      exact StepRes.noConfusion h
    · rw [if_neg c2] at h
      by_cases c3 : (isUltraOrPv2Upd cfg.storageAccountType ∧ cfg.ch.diskMbpsRO ∧
        cfg.maxShares = 0)
      · rw [if_pos c3] at h
        exact StepRes.noConfusion h
      · rw [if_neg c3] at h
        by_cases c4 : (¬ isUltraOrPv2Upd cfg.storageAccountType ∧
          (cfg.ch.diskIopsRW ∨ cfg.ch.diskMbpsRW ∨ cfg.ch.diskIopsRO ∨
            cfg.ch.diskMbpsRO))
        · rw [if_pos c4] at h
          exact StepRes.noConfusion h
        · rw [if_neg c4] at h
          by_cases c5 : (cfg.ch.diskSizeGB ∧ ¬ (cfg.diskSizeGBNew > cfg.diskSizeGBOld))
          · rw [if_pos c5] at h
            exact StepRes.noConfusion h
          · rw [if_neg c5] at h
            by_cases c6 : (cfg.ch.diskSizeGB ∧ env.expandWithoutDowntime ∧
              env.vmSupportsNDR = .err)
            · rw [if_pos c6] at h
              exact StepRes.noConfusion h
            · rw [if_neg c6] at h
              by_cases c7 : (cfg.ch.diskEncryptionSetId ∧ cfg.diskEncryptionSetId = "")
              · rw [if_pos c7] at h
                exact StepRes.noConfusion h
              · rw [if_neg c7] at h
                by_cases c8 : (cfg.ch.diskEncryptionSetId ∧ cfg.diskEncryptionSetId ≠ "" ∧
                  env.desEncryptionType = .err)
                · rw [if_pos c8] at h
                  exact StepRes.noConfusion h
                · rw [if_neg c8] at h
                  by_cases c9 : (cfg.ch.diskAccessId ∧ ¬ cfg.ch.networkAccessPolicy)
                  · rw [if_pos c9] at h
                    exact StepRes.noConfusion h
                  · rw [if_neg c9] at h
                    by_cases c10 : (cfg.ch.diskAccessId ∧ cfg.networkAccessPolicy ≠ "AllowPrivate" ∧
                      cfg.diskAccessId ≠ "")
                    · rw [if_pos c10] at h
                      exact StepRes.noConfusion h
                    · rw [if_neg c10] at h
                      by_cases c11 : (cfg.onDemandBurstingEnabled ∧ cfg.storageAccountType ≠ "Premium_LRS" ∧
                        cfg.storageAccountType ≠ "Premium_ZRS")
                      · rw [if_pos c11] at h
                        exact StepRes.noConfusion h
                      · rw [if_neg c11] at h
                        by_cases c12 : (cfg.onDemandBurstingEnabled ∧ cfg.diskSizeGBNew ≠ 0 ∧
                          cfg.diskSizeGBNew ≤ 512)
                        · rw [if_pos c12] at h
                          exact StepRes.noConfusion h
                        · rw [if_neg c12] at h
                          exact ⟨c1, c2, c3, c4, c5, c6, c7, c8, c9, c10, c11, c12⟩

/-- Inversion for a panicking pass through the update guards: every guard
before the nil `NetworkAccessPolicy` dereference is false and the dereference
condition (a `disk_access_id` change without a `network_access_policy`
change) holds. -/
theorem updFirstFault_panicked_inv {cfg : UpdateConfig} {env : UpdateEnv}
    (h : updFirstFault cfg env = .panicked) :
    ¬ (cfg.ch.tier ∧ cfg.storageAccountType ≠ "Premium_ZRS" ∧
        cfg.storageAccountType ≠ "Premium_LRS") ∧
    ¬ (isUltraOrPv2Upd cfg.storageAccountType ∧ cfg.ch.diskIopsRO ∧
        cfg.maxShares = 0) ∧
    ¬ (isUltraOrPv2Upd cfg.storageAccountType ∧ cfg.ch.diskMbpsRO ∧
        cfg.maxShares = 0) ∧
    ¬ (¬ isUltraOrPv2Upd cfg.storageAccountType ∧
        (cfg.ch.diskIopsRW ∨ cfg.ch.diskMbpsRW ∨ cfg.ch.diskIopsRO ∨
          cfg.ch.diskMbpsRO)) ∧
    ¬ (cfg.ch.diskSizeGB ∧ ¬ (cfg.diskSizeGBNew > cfg.diskSizeGBOld)) ∧
    ¬ (cfg.ch.diskSizeGB ∧ env.expandWithoutDowntime ∧
        env.vmSupportsNDR = .err) ∧
    ¬ (cfg.ch.diskEncryptionSetId ∧ cfg.diskEncryptionSetId = "") ∧
    ¬ (cfg.ch.diskEncryptionSetId ∧ cfg.diskEncryptionSetId ≠ "" ∧
        env.desEncryptionType = .err) ∧
    (cfg.ch.diskAccessId ∧ ¬ cfg.ch.networkAccessPolicy) := by
  unfold updFirstFault at h
  by_cases c1 : (cfg.ch.tier ∧ cfg.storageAccountType ≠ "Premium_ZRS" ∧
    cfg.storageAccountType ≠ "Premium_LRS")
  · rw [if_pos c1] at h
    exact StepRes.noConfusion h
  · rw [if_neg c1] at h
    by_cases c2 : (isUltraOrPv2Upd cfg.storageAccountType ∧ cfg.ch.diskIopsRO ∧
      cfg.maxShares = 0)
    · rw [if_pos c2] at h
      exact StepRes.noConfusion h
    · rw [if_neg c2] at h
      by_cases c3 : (isUltraOrPv2Upd cfg.storageAccountType ∧ cfg.ch.diskMbpsRO ∧
        cfg.maxShares = 0)
      · rw [if_pos c3] at h
        exact StepRes.noConfusion h
      · rw [if_neg c3] at h
        by_cases c4 : (¬ isUltraOrPv2Upd cfg.storageAccountType ∧
          (cfg.ch.diskIopsRW ∨ cfg.ch.diskMbpsRW ∨ cfg.ch.diskIopsRO ∨
            cfg.ch.diskMbpsRO))
        · rw [if_pos c4] at h
          exact StepRes.noConfusion h
        · rw [if_neg c4] at h
          by_cases c5 : (cfg.ch.diskSizeGB ∧ ¬ (cfg.diskSizeGBNew > cfg.diskSizeGBOld))
          · rw [if_pos c5] at h
            exact StepRes.noConfusion h
          · rw [if_neg c5] at h
            by_cases c6 : (cfg.ch.diskSizeGB ∧ env.expandWithoutDowntime ∧
              env.vmSupportsNDR = .err)
            · rw [if_pos c6] at h
              exact StepRes.noConfusion h
            · rw [if_neg c6] at h
              by_cases c7 : (cfg.ch.diskEncryptionSetId ∧ cfg.diskEncryptionSetId = "")
              · rw [if_pos c7] at h
                exact StepRes.noConfusion h
              · rw [if_neg c7] at h
                by_cases c8 : (cfg.ch.diskEncryptionSetId ∧ cfg.diskEncryptionSetId ≠ "" ∧
                  env.desEncryptionType = .err)
                · rw [if_pos c8] at h
                  exact StepRes.noConfusion h
                · rw [if_neg c8] at h
                  by_cases c9 : (cfg.ch.diskAccessId ∧ ¬ cfg.ch.networkAccessPolicy)
                  · rw [if_pos c9] at h
                    exact ⟨c1, c2, c3, c4, c5, c6, c7, c8, c9⟩
                  · rw [if_neg c9] at h
                    by_cases c10 : (cfg.ch.diskAccessId ∧ cfg.networkAccessPolicy ≠ "AllowPrivate" ∧
                      cfg.diskAccessId ≠ "")
                    · rw [if_pos c10] at h
                      exact StepRes.noConfusion h
                    · rw [if_neg c10] at h
                      by_cases c11 : (cfg.onDemandBurstingEnabled ∧ cfg.storageAccountType ≠ "Premium_LRS" ∧
                        cfg.storageAccountType ≠ "Premium_ZRS")
                      · rw [if_pos c11] at h
                        exact StepRes.noConfusion h
                      · rw [if_neg c11] at h
                        by_cases c12 : (cfg.onDemandBurstingEnabled ∧ cfg.diskSizeGBNew ≠ 0 ∧
                          cfg.diskSizeGBNew ≤ 512)
                        · rw [if_pos c12] at h
                          exact StepRes.noConfusion h
                        · rw [if_neg c12] at h
                          exact StepRes.noConfusion h

/-- Inversion for a fault-free pass through the create guards: every guard
condition of `createFirstFault` is false. -/
theorem createFirstFault_ok_inv {cfg : CreateConfig} {env : CreateEnv}
    (h : createFirstFault cfg env = .ok ()) :
    ¬ (isUltraOrPv2Create cfg.storageAccountType ∧ cfg.diskIopsRO.isSome ∧
        cfg.maxShares = 0) ∧
    ¬ (isUltraOrPv2Create cfg.storageAccountType ∧ cfg.diskMbpsRO.isSome ∧
        cfg.maxShares = 0) ∧
    ¬ (¬ isUltraOrPv2Create cfg.storageAccountType ∧
        (cfg.ch.diskIopsRW ∨ cfg.ch.diskMbpsRW ∨ cfg.ch.diskIopsRO ∨
          cfg.ch.diskMbpsRO ∨ cfg.ch.logicalSectorSize)) ∧
    ¬ (isImportOption cfg.createOption ∧ cfg.sourceUri = "") ∧
    ¬ (isImportOption cfg.createOption ∧ cfg.storageAccountId = "") ∧
    ¬ (isCopyRestoreOption cfg.createOption ∧ cfg.sourceResourceId = "") ∧
    ¬ (cfg.createOption = "FromImage" ∧ cfg.imageReferenceId = "" ∧
        cfg.galleryImageReferenceId = "") ∧
    ¬ (cfg.createOption = "Upload" ∧ cfg.uploadSizeBytes = 0) ∧
    ¬ (cfg.diskEncryptionSetId ≠ "" ∧ env.desEncryptionType = .err) ∧
    ¬ (cfg.ch.diskAccessId ∧ cfg.networkAccessPolicy ≠ "AllowPrivate" ∧
        cfg.diskAccessId ≠ "") ∧
    ¬ (cfg.tier ≠ "" ∧ cfg.storageAccountType ≠ "Premium_ZRS" ∧
        cfg.storageAccountType ≠ "Premium_LRS") ∧
    ¬ (cfg.trustedLaunchEnabled ∧
        ¬ isSecuritySupportedOption cfg.createOption) ∧
    ¬ (cfg.securityType ≠ "" ∧ cfg.trustedLaunchEnabled) ∧
    ¬ (cfg.securityType ≠ "" ∧
        ¬ isSecuritySupportedOption cfg.createOption) ∧
    ¬ (cfg.securityType = "ConfidentialVM_DiskEncryptedWithCustomerKey" ∧
        cfg.secureVMDiskEncryptionSetId = "") ∧
    ¬ (cfg.secureVMDiskEncryptionSetId ≠ "" ∧
        cfg.securityType ≠ "ConfidentialVM_DiskEncryptedWithCustomerKey") ∧
    ¬ (cfg.onDemandBurstingEnabled ∧ cfg.storageAccountType ≠ "Premium_LRS" ∧
        cfg.storageAccountType ≠ "Premium_ZRS") ∧
    ¬ (cfg.onDemandBurstingEnabled ∧ cfg.diskSizeGB ≠ 0 ∧
        cfg.diskSizeGB ≤ 512) := by
  unfold createFirstFault at h
  by_cases c1 : (isUltraOrPv2Create cfg.storageAccountType ∧ cfg.diskIopsRO.isSome ∧
    cfg.maxShares = 0)
  · rw [if_pos c1] at h
    exact StepRes.noConfusion h
  · rw [if_neg c1] at h
    by_cases c2 : (isUltraOrPv2Create cfg.storageAccountType ∧ cfg.diskMbpsRO.isSome ∧
      cfg.maxShares = 0)
    · rw [if_pos c2] at h
      exact StepRes.noConfusion h
    · rw [if_neg c2] at h
      by_cases c3 : (¬ isUltraOrPv2Create cfg.storageAccountType ∧
        (cfg.ch.diskIopsRW ∨ cfg.ch.diskMbpsRW ∨ cfg.ch.diskIopsRO ∨
          cfg.ch.diskMbpsRO ∨ cfg.ch.logicalSectorSize))
      · rw [if_pos c3] at h
        exact StepRes.noConfusion h
      · rw [if_neg c3] at h
        by_cases c4 : (isImportOption cfg.createOption ∧ cfg.sourceUri = "")
        · rw [if_pos c4] at h
          exact StepRes.noConfusion h
        · rw [if_neg c4] at h
          by_cases c5 : (isImportOption cfg.createOption ∧ cfg.storageAccountId = "")
          · rw [if_pos c5] at h
            exact StepRes.noConfusion h
          · rw [if_neg c5] at h
            by_cases c6 : (isCopyRestoreOption cfg.createOption ∧ cfg.sourceResourceId = "")
            · rw [if_pos c6] at h
              exact StepRes.noConfusion h
            · rw [if_neg c6] at h
              by_cases c7 : (cfg.createOption = "FromImage" ∧ cfg.imageReferenceId = "" ∧
                cfg.galleryImageReferenceId = "")
              · rw [if_pos c7] at h
                exact StepRes.noConfusion h
              · rw [if_neg c7] at h
                by_cases c8 : (cfg.createOption = "Upload" ∧ cfg.uploadSizeBytes = 0)
                · rw [if_pos c8] at h
                  exact StepRes.noConfusion h
                · rw [if_neg c8] at h
                  by_cases c9 : (cfg.diskEncryptionSetId ≠ "" ∧ env.desEncryptionType = .err)
                  · rw [if_pos c9] at h
                    exact StepRes.noConfusion h
                  · rw [if_neg c9] at h
                    by_cases c10 : (cfg.ch.diskAccessId ∧ cfg.networkAccessPolicy ≠ "AllowPrivate" ∧
                      cfg.diskAccessId ≠ "")
                    · rw [if_pos c10] at h
                      exact StepRes.noConfusion h
                    · rw [if_neg c10] at h
                      by_cases c11 : (cfg.tier ≠ "" ∧ cfg.storageAccountType ≠ "Premium_ZRS" ∧
                        cfg.storageAccountType ≠ "Premium_LRS")
                      · rw [if_pos c11] at h
                        exact StepRes.noConfusion h
                      · rw [if_neg c11] at h
                        by_cases c12 : (cfg.trustedLaunchEnabled ∧
                          ¬ isSecuritySupportedOption cfg.createOption)
                        · rw [if_pos c12] at h
                          exact StepRes.noConfusion h
                        · rw [if_neg c12] at h
                          by_cases c13 : (cfg.securityType ≠ "" ∧ cfg.trustedLaunchEnabled)
                          · rw [if_pos c13] at h
                            exact StepRes.noConfusion h
                          · rw [if_neg c13] at h
                            by_cases c14 : (cfg.securityType ≠ "" ∧
                              ¬ isSecuritySupportedOption cfg.createOption)
                            · rw [if_pos c14] at h
                              exact StepRes.noConfusion h
                            · rw [if_neg c14] at h
                              by_cases c15 : (cfg.securityType = "ConfidentialVM_DiskEncryptedWithCustomerKey" ∧
                                cfg.secureVMDiskEncryptionSetId = "")
                              · rw [if_pos c15] at h
                                exact StepRes.noConfusion h
                              · rw [if_neg c15] at h
                                by_cases c16 : (cfg.secureVMDiskEncryptionSetId ≠ "" ∧
                                  cfg.securityType ≠ "ConfidentialVM_DiskEncryptedWithCustomerKey")
                                · rw [if_pos c16] at h
                                  exact StepRes.noConfusion h
                                · rw [if_neg c16] at h
                                  by_cases c17 : (cfg.onDemandBurstingEnabled ∧ cfg.storageAccountType ≠ "Premium_LRS" ∧
                                    cfg.storageAccountType ≠ "Premium_ZRS")
                                  · rw [if_pos c17] at h
                                    exact StepRes.noConfusion h
                                  · rw [if_neg c17] at h
                                    by_cases c18 : (cfg.onDemandBurstingEnabled ∧ cfg.diskSizeGB ≠ 0 ∧
                                      cfg.diskSizeGB ≤ 512)
                                    · rw [if_pos c18] at h
                                      exact StepRes.noConfusion h
                                    · rw [if_neg c18] at h
                                      exact ⟨c1, c2, c3, c4, c5, c6, c7, c8, c9, c10, c11, c12, c13, c14, c15, c16, c17, c18⟩

/-- The create guard chain never panics: it only fails or passes. -/
theorem createFirstFault_no_panic (cfg : CreateConfig) (env : CreateEnv) :
    createFirstFault cfg env ≠ .panicked := by
  intro h
  unfold createFirstFault at h
  by_cases c1 : (isUltraOrPv2Create cfg.storageAccountType ∧ cfg.diskIopsRO.isSome ∧
    cfg.maxShares = 0)
  · rw [if_pos c1] at h
    exact StepRes.noConfusion h
  · rw [if_neg c1] at h
    by_cases c2 : (isUltraOrPv2Create cfg.storageAccountType ∧ cfg.diskMbpsRO.isSome ∧
      cfg.maxShares = 0)
    · rw [if_pos c2] at h
      exact StepRes.noConfusion h
    · rw [if_neg c2] at h
      by_cases c3 : (¬ isUltraOrPv2Create cfg.storageAccountType ∧
        (cfg.ch.diskIopsRW ∨ cfg.ch.diskMbpsRW ∨ cfg.ch.diskIopsRO ∨
          cfg.ch.diskMbpsRO ∨ cfg.ch.logicalSectorSize))
      · rw [if_pos c3] at h
        exact StepRes.noConfusion h
      · rw [if_neg c3] at h
        by_cases c4 : (isImportOption cfg.createOption ∧ cfg.sourceUri = "")
        · rw [if_pos c4] at h
          exact StepRes.noConfusion h
        · rw [if_neg c4] at h
          by_cases c5 : (isImportOption cfg.createOption ∧ cfg.storageAccountId = "")
          · rw [if_pos c5] at h
            exact StepRes.noConfusion h
          · rw [if_neg c5] at h
            by_cases c6 : (isCopyRestoreOption cfg.createOption ∧ cfg.sourceResourceId = "")
            · rw [if_pos c6] at h
              exact StepRes.noConfusion h
            · rw [if_neg c6] at h
              by_cases c7 : (cfg.createOption = "FromImage" ∧ cfg.imageReferenceId = "" ∧
                cfg.galleryImageReferenceId = "")
              · rw [if_pos c7] at h
                exact StepRes.noConfusion h
              · rw [if_neg c7] at h
                by_cases c8 : (cfg.createOption = "Upload" ∧ cfg.uploadSizeBytes = 0)
                · rw [if_pos c8] at h
                  exact StepRes.noConfusion h
                · rw [if_neg c8] at h
                  by_cases c9 : (cfg.diskEncryptionSetId ≠ "" ∧ env.desEncryptionType = .err)
                  · rw [if_pos c9] at h
                    exact StepRes.noConfusion h
                  · rw [if_neg c9] at h
                    by_cases c10 : (cfg.ch.diskAccessId ∧ cfg.networkAccessPolicy ≠ "AllowPrivate" ∧
                      cfg.diskAccessId ≠ "")
                    · rw [if_pos c10] at h
                      exact StepRes.noConfusion h
                    · rw [if_neg c10] at h
                      by_cases c11 : (cfg.tier ≠ "" ∧ cfg.storageAccountType ≠ "Premium_ZRS" ∧
                        cfg.storageAccountType ≠ "Premium_LRS")
                      · rw [if_pos c11] at h
                        exact StepRes.noConfusion h
                      · rw [if_neg c11] at h
                        by_cases c12 : (cfg.trustedLaunchEnabled ∧
                          ¬ isSecuritySupportedOption cfg.createOption)
                        · rw [if_pos c12] at h
                          exact StepRes.noConfusion h
                        · rw [if_neg c12] at h
                          by_cases c13 : (cfg.securityType ≠ "" ∧ cfg.trustedLaunchEnabled)
                          · rw [if_pos c13] at h
                            exact StepRes.noConfusion h
                          · rw [if_neg c13] at h
                            by_cases c14 : (cfg.securityType ≠ "" ∧
                              ¬ isSecuritySupportedOption cfg.createOption)
                            · rw [if_pos c14] at h
                              exact StepRes.noConfusion h
                            · rw [if_neg c14] at h
                              by_cases c15 : (cfg.securityType = "ConfidentialVM_DiskEncryptedWithCustomerKey" ∧
                                cfg.secureVMDiskEncryptionSetId = "")
                              · rw [if_pos c15] at h
                                exact StepRes.noConfusion h
                              · rw [if_neg c15] at h
                                by_cases c16 : (cfg.secureVMDiskEncryptionSetId ≠ "" ∧
                                  cfg.securityType ≠ "ConfidentialVM_DiskEncryptedWithCustomerKey")
                                · rw [if_pos c16] at h
                                  exact StepRes.noConfusion h
                                · rw [if_neg c16] at h
                                  by_cases c17 : (cfg.onDemandBurstingEnabled ∧ cfg.storageAccountType ≠ "Premium_LRS" ∧
                                    cfg.storageAccountType ≠ "Premium_ZRS")
                                  · rw [if_pos c17] at h
                                    exact StepRes.noConfusion h
                                  · rw [if_neg c17] at h
                                    by_cases c18 : (cfg.onDemandBurstingEnabled ∧ cfg.diskSizeGB ≠ 0 ∧
                                      cfg.diskSizeGB ≤ 512)
                                    · rw [if_pos c18] at h
                                      exact StepRes.noConfusion h
                                    · rw [if_neg c18] at h
                                      exact StepRes.noConfusion h

/-- A guard fault in the create build aborts create before any API write:
no `CreateOrUpdateThenPoll`, no id set. -/
theorem create_dispatch_fail {cfg : CreateConfig} {env : CreateEnv} {e : UErr}
    (hexist : env.isNew = true → env.existing = .notFound)
    (hf : createFirstFault cfg env = .fail e) :
    resourceManagedDiskCreate cfg env =
      ⟨if env.isNew then [.existingGet] else [], .fail e, false⟩ := by
  have h1 : ¬ (env.isNew ∧ env.existing = .errOther) := by
    rintro ⟨ha, hb⟩
    have := hexist ha
    simp_all
  have h2 : ¬ (env.isNew ∧ env.existing = .found) := by
    rintro ⟨ha, hb⟩
    have := hexist ha
    simp_all
  unfold resourceManagedDiskCreate buildCreateDisk
  rw [hf, if_neg h1, if_neg h2]

/-- If `disk_iops_read_only` or `disk_mbps_read_only` changed on an
UltraSSD/PremiumV2 update with `max_shares` zero, some update guard fails. -/
theorem updFault_fails_readonly {cfg : UpdateConfig} {env : UpdateEnv}
    (hu : isUltraOrPv2Upd cfg.storageAccountType = true)
    (hms : cfg.maxShares = 0)
    (hro : cfg.ch.diskIopsRO = true ∨ cfg.ch.diskMbpsRO = true) :
    ∃ e, updFirstFault cfg env = .fail e := by
  cases hf : updFirstFault cfg env with
  | fail e => exact ⟨e, rfl⟩
  | ok a =>
      cases a
      have inv := updFirstFault_ok_inv hf
      rcases hro with h | h
      · exact absurd ⟨hu, h, hms⟩ inv.2.1
      · exact absurd ⟨hu, h, hms⟩ inv.2.2.1
  | panicked =>
      have inv := updFirstFault_panicked_inv hf
      rcases hro with h | h
      · exact absurd ⟨hu, h, hms⟩ inv.2.1
      · exact absurd ⟨hu, h, hms⟩ inv.2.2.1

/-- If the disk size changed without a strict increase, some update guard
fails. -/
theorem updFault_fails_shrink {cfg : UpdateConfig} {env : UpdateEnv}
    (h1 : cfg.ch.diskSizeGB = true)
    (h2 : ¬ (cfg.diskSizeGBNew > cfg.diskSizeGBOld)) :
    ∃ e, updFirstFault cfg env = .fail e := by
  cases hf : updFirstFault cfg env with
  | fail e => exact ⟨e, rfl⟩
  | ok a =>
      cases a
      exact absurd ⟨h1, h2⟩ (updFirstFault_ok_inv hf).2.2.2.2.1
  | panicked =>
      exact absurd ⟨h1, h2⟩ (updFirstFault_panicked_inv hf).2.2.2.2.1

/-- If `disk_encryption_set_id` changed to the empty string, some update
guard fails. -/
theorem updFault_fails_cmk {cfg : UpdateConfig} {env : UpdateEnv}
    (h1 : cfg.ch.diskEncryptionSetId = true)
    (h2 : cfg.diskEncryptionSetId = "") :
    ∃ e, updFirstFault cfg env = .fail e := by
  cases hf : updFirstFault cfg env with
  | fail e => exact ⟨e, rfl⟩
  | ok a =>
      cases a
      exact absurd ⟨h1, h2⟩ (updFirstFault_ok_inv hf).2.2.2.2.2.2.1
  | panicked =>
      exact absurd ⟨h1, h2⟩ (updFirstFault_panicked_inv hf).2.2.2.2.2.2.1

/-- C9: update payload construction is conditional on the diff — on every
successful payload build, a `DiskUpdate` property whose configuration field
did not change remains `nil`, so the remote value is left unchanged. -/
theorem managed_disk_update_payload_frame
    (cfg : UpdateConfig) (env : UpdateEnv) (u : DiskUpdate) (ssd sdet : Bool)
    (h : buildDiskUpdate cfg env = .ok ⟨u, ssd, sdet⟩) :
    (cfg.ch.tags = false → u.Tags = none) ∧
    (cfg.ch.maxShares = false → u.Properties.MaxShares = none) ∧
    (cfg.ch.maxShares = false → cfg.ch.storageAccountType = false →
      u.Sku = none) ∧
    (cfg.ch.tier = false → u.Properties.Tier = none) ∧
    (cfg.ch.osType = false → u.Properties.OsType = none) ∧
    (cfg.ch.optimized = false → u.Properties.OptimizedForFrequentAttach = none) ∧
    (cfg.ch.encryptionSettings = false →
      u.Properties.EncryptionSettingsCollection = none) ∧
    (cfg.ch.diskEncryptionSetId = false → u.Properties.Encryption = none) ∧
    (cfg.ch.networkAccessPolicy = false →
      u.Properties.NetworkAccessPolicy = none) ∧
    (cfg.ch.publicNetworkAccess = false →
      u.Properties.PublicNetworkAccess = none) ∧
    (cfg.ch.onDemandBursting = false → u.Properties.BurstingEnabled = none) ∧
    (cfg.ch.diskIopsRW = false → u.Properties.DiskIOPSReadWrite = none) ∧
    (cfg.ch.diskMbpsRW = false → u.Properties.DiskMBpsReadWrite = none) ∧
    (cfg.ch.diskIopsRO = false → u.Properties.DiskIOPSReadOnly = none) ∧
    (cfg.ch.diskMbpsRO = false → u.Properties.DiskMBpsReadOnly = none) := by
  have hst := (buildDiskUpdate_ok h).1
  have hu : u = updPayload cfg env := congrArg BSt.u hst
  subst hu
  refine ⟨?_, ?_, ?_, ?_, ?_, ?_, ?_, ?_, ?_, ?_, ?_, ?_, ?_, ?_, ?_⟩ <;>
    intros <;> simp_all [updPayload]

/-- C5: shrinking a disk is rejected — an update whose `disk_size_gb` changed
without a strict increase returns an error right after the initial read (so
no size change is sent), and a successful payload build with a size change
implies a strict increase, with the new size forwarded in the payload. -/
theorem managed_disk_update_no_shrink
    (cfg : UpdateConfig) (env : UpdateEnv) (dm : DiskModel) (u : DiskUpdate)
    (ssd sdet : Bool) :
    (cfg.ch.diskSizeGB = true → ¬ (cfg.diskSizeGBNew > cfg.diskSizeGBOld) →
      env.idOk = true → env.getDisk = .ok dm →
      ∃ e, resourceManagedDiskUpdate cfg env = ([.getDisk], .fail e)) ∧
    (buildDiskUpdate cfg env = .ok ⟨u, ssd, sdet⟩ → cfg.ch.diskSizeGB = true →
      cfg.diskSizeGBNew > cfg.diskSizeGBOld ∧
        u.Properties.DiskSizeGB = some cfg.diskSizeGBNew) := by
  constructor
  · intro h1 h2 hid hget
    obtain ⟨e, hf⟩ := @updFault_fails_shrink cfg env h1 h2
    exact ⟨e, update_dispatch_fail hid hget hf⟩
  · intro hb h1
    obtain ⟨hst, hok⟩ := buildDiskUpdate_ok hb
    have hu : u = updPayload cfg env := congrArg BSt.u hst
    have hgrow : cfg.diskSizeGBNew > cfg.diskSizeGBOld := by
      by_contra hc
      exact (updFirstFault_ok_inv hok).2.2.2.2.1 ⟨h1, hc⟩
    subst hu
    exact ⟨hgrow, by simp [updPayload, h1]⟩

/-- C8: a customer-managed key cannot be reverted — an update whose
`disk_encryption_set_id` changed to the empty string errors right after the
initial read (nothing is sent), while a successful build with a change to a
non-empty value resolves the encryption type from the disk encryption set,
includes it in the payload, and forces the shutdown flag. -/
theorem managed_disk_update_cmk_not_revertible
    (cfg : UpdateConfig) (env : UpdateEnv) (dm : DiskModel) (u : DiskUpdate)
    (ssd sdet : Bool) :
    (cfg.ch.diskEncryptionSetId = true → cfg.diskEncryptionSetId = "" →
      env.idOk = true → env.getDisk = .ok dm →
      ∃ e, resourceManagedDiskUpdate cfg env = ([.getDisk], .fail e)) ∧
    (buildDiskUpdate cfg env = .ok ⟨u, ssd, sdet⟩ →
      cfg.ch.diskEncryptionSetId = true →
      cfg.diskEncryptionSetId ≠ "" ∧
        (∃ t, env.desEncryptionType = .ok t ∧
          u.Properties.Encryption =
            some ⟨some t, some cfg.diskEncryptionSetId⟩) ∧
        ssd = true) := by
  constructor
  · intro h1 h2 hid hget
    obtain ⟨e, hf⟩ := @updFault_fails_cmk cfg env h1 h2
    exact ⟨e, update_dispatch_fail hid hget hf⟩
  · intro hb h1
    obtain ⟨hst, hok⟩ := buildDiskUpdate_ok hb
    have hu : u = updPayload cfg env := congrArg BSt.u hst
    have hssd : ssd = updShouldShutDown cfg env := congrArg BSt.ssd hst
    have inv := updFirstFault_ok_inv hok
    have hne : cfg.diskEncryptionSetId ≠ "" := by
      intro hc
      exact inv.2.2.2.2.2.2.1 ⟨h1, hc⟩
    have hdes : ∃ t, env.desEncryptionType = .ok t := by
      cases hd : env.desEncryptionType with
      | err => exact absurd ⟨h1, hne, hd⟩ inv.2.2.2.2.2.2.2.1
      | ok t => exact ⟨t, rfl⟩
    obtain ⟨t, ht⟩ := hdes
    subst hu
    refine ⟨hne, ⟨t, ht, ?_⟩, ?_⟩
    · simp [updPayload, h1, ht, StrOrErr.toOption]
    · rw [hssd]
      simp [updShouldShutDown, h1]

/-- Inversion for a successful create build: no guard fired and the result is
the assembled request body. -/
theorem buildCreateDisk_ok {cfg : CreateConfig} {env : CreateEnv} {d : Disk}
    (h : buildCreateDisk cfg env = .ok d) :
    d = createDiskBody cfg env ∧ createFirstFault cfg env = .ok () := by
  unfold buildCreateDisk at h
  cases hf : createFirstFault cfg env <;> rw [hf] at h <;> simp_all

/-- C4: `tier` requires `Premium_LRS` or `Premium_ZRS` — a create supplying a
tier on another SKU fails before any API write, a successful create build
with a tier includes it in the body (and the SKU is premium), an update
changing the tier on another SKU fails with exactly the tier error right
after the initial read, and a successful update build with a tier change
includes the tier in the payload (and the SKU is premium). -/
theorem managed_disk_tier_requires_premium
    (ccfg : CreateConfig) (cenv : CreateEnv) (d : Disk)
    (ucfg : UpdateConfig) (uenv : UpdateEnv) (dm : DiskModel)
    (u : DiskUpdate) (ssd sdet : Bool) :
    (ccfg.tier ≠ "" → ccfg.storageAccountType ≠ "Premium_ZRS" →
      ccfg.storageAccountType ≠ "Premium_LRS" →
      (cenv.isNew = true → cenv.existing = .notFound) →
      ∃ e, resourceManagedDiskCreate ccfg cenv =
        ⟨if cenv.isNew then [.existingGet] else [], .fail e, false⟩) ∧
    (buildCreateDisk ccfg cenv = .ok d → ccfg.tier ≠ "" →
      d.Properties.Tier = some ccfg.tier ∧
        (ccfg.storageAccountType = "Premium_ZRS" ∨
          ccfg.storageAccountType = "Premium_LRS")) ∧
    (ucfg.ch.tier = true → ucfg.storageAccountType ≠ "Premium_ZRS" →
      ucfg.storageAccountType ≠ "Premium_LRS" →
      uenv.idOk = true → uenv.getDisk = .ok dm →
      resourceManagedDiskUpdate ucfg uenv =
        ([.getDisk], .fail .tierRequiresPremium)) ∧
    (buildDiskUpdate ucfg uenv = .ok ⟨u, ssd, sdet⟩ → ucfg.ch.tier = true →
      u.Properties.Tier = some ucfg.tier ∧
        (ucfg.storageAccountType = "Premium_ZRS" ∨
          ucfg.storageAccountType = "Premium_LRS")) := by
  refine ⟨?_, ?_, ?_, ?_⟩
  · intro h1 h2 h3 hexist
    rcases hf : createFirstFault ccfg cenv with ⟨⟩ | e | _
    · exact absurd ⟨h1, h2, h3⟩ (createFirstFault_ok_inv hf).2.2.2.2.2.2.2.2.2.2.1
    · exact ⟨e, create_dispatch_fail hexist hf⟩
    · exact absurd hf (createFirstFault_no_panic ccfg cenv)
  · intro hb h1
    obtain ⟨hd, hok⟩ := buildCreateDisk_ok hb
    have hprem : ccfg.storageAccountType = "Premium_ZRS" ∨
        ccfg.storageAccountType = "Premium_LRS" := by
      by_contra hc
      push_neg at hc
      exact (createFirstFault_ok_inv hok).2.2.2.2.2.2.2.2.2.2.1 ⟨h1, hc.1, hc.2⟩
    subst hd
    exact ⟨by simp [createDiskBody, h1], hprem⟩
  · intro h1 h2 h3 hid hget
    have hf : updFirstFault ucfg uenv = .fail .tierRequiresPremium := by
      unfold updFirstFault
      rw [if_pos ⟨h1, h2, h3⟩]
    exact update_dispatch_fail hid hget hf
  · intro hb h1
    obtain ⟨hst, hok⟩ := buildDiskUpdate_ok hb
    have hu : u = updPayload ucfg uenv := congrArg BSt.u hst
    have hprem : ucfg.storageAccountType = "Premium_ZRS" ∨
        ucfg.storageAccountType = "Premium_LRS" := by
      by_contra hc
      push_neg at hc
      exact (updFirstFault_ok_inv hok).1 ⟨h1, hc.1, hc.2⟩
    subst hu
    exact ⟨by simp [updPayload, h1], hprem⟩

/-- C3: `disk_iops_read_only`/`disk_mbps_read_only` require `max_shares` >
0 — on an UltraSSD/PremiumV2 disk, a create supplying a read-only
IOPS/MBps value with `max_shares` zero fails before any API write, and an
update changing one with `max_shares` zero fails right after the initial
read; in both cases the read-only value is never sent. -/
theorem managed_disk_read_only_requires_shares
    (ccfg : CreateConfig) (cenv : CreateEnv)
    (ucfg : UpdateConfig) (uenv : UpdateEnv) (dm : DiskModel) :
    ((cenv.isNew = true → cenv.existing = .notFound) →
      isUltraOrPv2Create ccfg.storageAccountType = true →
      ccfg.maxShares = 0 →
      (ccfg.diskIopsRO.isSome = true ∨ ccfg.diskMbpsRO.isSome = true) →
      ∃ e, resourceManagedDiskCreate ccfg cenv =
        ⟨if cenv.isNew then [.existingGet] else [], .fail e, false⟩) ∧
    (uenv.idOk = true → uenv.getDisk = .ok dm →
      isUltraOrPv2Upd ucfg.storageAccountType = true →
      ucfg.maxShares = 0 →
      (ucfg.ch.diskIopsRO = true ∨ ucfg.ch.diskMbpsRO = true) →
      ∃ e, resourceManagedDiskUpdate ucfg uenv = ([.getDisk], .fail e)) := by
  constructor
  · intro hexist hu hms hro
    rcases hf : createFirstFault ccfg cenv with ⟨⟩ | e | _
    · have inv := createFirstFault_ok_inv hf
      rcases hro with h | h
      · exact absurd ⟨hu, h, hms⟩ inv.1
      · exact absurd ⟨hu, h, hms⟩ inv.2.1
    · exact ⟨e, create_dispatch_fail hexist hf⟩
    · exact absurd hf (createFirstFault_no_panic ccfg cenv)
  · intro hid hget hu hms hro
    obtain ⟨e, hf⟩ := @updFault_fails_readonly ucfg uenv hu hms hro
    exact ⟨e, update_dispatch_fail hid hget hf⟩

/-- C1: when a successful payload build requires a shutdown (exactly: a tier,
SKU, disk-encryption-set or bursting change, or a size increase that cannot
be resized without downtime) and the disk is attached (`ManagedBy` non-nil,
with a parseable VM id), the update takes the named lock keyed by the VM
name, delegates to the external shutdown helper, and releases the lock after
the final read; otherwise it applies the update directly via the blocking
`UpdateThenPoll`. -/
theorem managed_disk_update_vm_shutdown_lock
    (cfg : UpdateConfig) (env : UpdateEnv) (dm : DiskModel) (u : DiskUpdate)
    (ssd sdet : Bool)
    (hid : env.idOk = true) (hget : env.getDisk = .ok dm)
    (hbuild : buildDiskUpdate cfg env = .ok ⟨u, ssd, sdet⟩) :
    ssd = (cfg.ch.tier || cfg.ch.storageAccountType ||
      (cfg.ch.diskSizeGB && ! canResizeWithoutDowntime env) ||
      cfg.ch.diskEncryptionSetId || cfg.ch.onDemandBursting) ∧
    (∀ mb vmName, dm.managedBy = some mb → env.vmNameParsed = some vmName →
      ssd = true →
      resourceManagedDiskUpdate cfg env =
        ([ApiEvent.getDisk, .lockVM vmName, .vmShutdownUpdate] ++
          (if env.helperOk then [ApiEvent.readDisk] else []) ++
          [ApiEvent.unlockVM vmName],
         if env.helperOk then
           (if env.readOk then Outcome.ok else Outcome.fail .readErr)
         else Outcome.fail .helperErr)) ∧
    ((ssd = false ∨ dm.managedBy = none) →
      resourceManagedDiskUpdate cfg env =
        ([ApiEvent.getDisk, .updateThenPoll] ++
          (if env.updatePollOk then [ApiEvent.readDisk] else []),
         if env.updatePollOk then
           (if env.readOk then Outcome.ok else Outcome.fail .readErr)
         else Outcome.fail .updatePollErr)) := by
  have hssd : ssd = updShouldShutDown cfg env :=
    congrArg BSt.ssd (buildDiskUpdate_ok hbuild).1
  refine ⟨?_, ?_, ?_⟩
  · rw [hssd]
    rfl
  · intro mb vmName hmb hvm hT
    cases hh : env.helperOk <;> cases hr : env.readOk <;>
      simp [resourceManagedDiskUpdate, hid, hget, hbuild, hmb, hvm, hT, hh, hr]
  · intro hc
    rcases hc with hF | hN
    · cases hp : env.updatePollOk <;> cases hr : env.readOk <;>
        simp [resourceManagedDiskUpdate, hid, hget, hbuild, hF, hp, hr]
    · cases hp : env.updatePollOk <;> cases hr : env.readOk <;>
        simp [resourceManagedDiskUpdate, hid, hget, hbuild, hN, hp, hr]

/-- C7: once the create validations pass, the disk is submitted exactly once
via the blocking `CreateOrUpdateThenPoll`; only after a successful poll does
create read the disk back and set the resource id before delegating to read —
a failed poll, a failed read-back, or a nil model each return an error with
the id never set. -/
theorem managed_disk_create_poll_then_read
    (cfg : CreateConfig) (env : CreateEnv) (d : Disk)
    (hbuild : buildCreateDisk cfg env = .ok d)
    (hexist : env.isNew = true → env.existing = .notFound) :
    ((resourceManagedDiskCreate cfg env).trace.count .createOrUpdatePoll = 1) ∧
    (env.createPollOk = false →
      resourceManagedDiskCreate cfg env =
        ⟨(if env.isNew then [ApiEvent.existingGet] else []) ++
          [ApiEvent.createOrUpdatePoll], .fail .createPollErr, false⟩) ∧
    (env.createPollOk = true → env.getAfter = .err →
      resourceManagedDiskCreate cfg env =
        ⟨(if env.isNew then [ApiEvent.existingGet] else []) ++
          [ApiEvent.createOrUpdatePoll, .getDisk], .fail .getAfterErr, false⟩) ∧
    (env.createPollOk = true → env.getAfter = .okNone →
      resourceManagedDiskCreate cfg env =
        ⟨(if env.isNew then [ApiEvent.existingGet] else []) ++
          [ApiEvent.createOrUpdatePoll, .getDisk], .fail .modelNilErr, false⟩) ∧
    (env.createPollOk = true → env.getAfter = .okSome →
      resourceManagedDiskCreate cfg env =
        ⟨(if env.isNew then [ApiEvent.existingGet] else []) ++
          [ApiEvent.createOrUpdatePoll, .getDisk, .readDisk],
         if env.readOk then Outcome.ok else Outcome.fail .readErr, true⟩) := by
  have h1 : ¬ (env.isNew ∧ env.existing = .errOther) := by
    rintro ⟨ha, hb⟩
    have := hexist ha
    simp_all
  have h2 : ¬ (env.isNew ∧ env.existing = .found) := by
    rintro ⟨ha, hb⟩
    have := hexist ha
    simp_all
  refine ⟨?_, ?_, ?_, ?_, ?_⟩
  · cases hn : env.isNew <;> cases hp : env.createPollOk <;>
      cases hg : env.getAfter <;>
      simp_all [resourceManagedDiskCreate, hbuild, List.count_cons,
        List.count_nil]
  · intro hp
    cases hn : env.isNew <;>
      simp_all [resourceManagedDiskCreate, hbuild]
  · intro hp hg
    cases hn : env.isNew <;>
      simp_all [resourceManagedDiskCreate, hbuild]
  · intro hp hg
    cases hn : env.isNew <;>
      simp_all [resourceManagedDiskCreate, hbuild]
  · intro hp hg
    cases hn : env.isNew <;>
      simp_all [resourceManagedDiskCreate, hbuild]

/-- A benign create configuration: empty disk, standard SKU, no options. -/
def createCfg0 : CreateConfig where
  name := "disk1"
  location := "westeurope"
  createOption := "Empty"
  storageAccountType := "Standard_LRS"
  osType := "Linux"
  maxShares := 0
  tags := []
  performancePlusEnabled := false
  optimizedFrequentAttach := false
  diskSizeGB := 0
  diskIopsRW := 0
  diskMbpsRW := 0
  diskIopsRO := none
  diskMbpsRO := none
  logicalSectorSize := none
  sourceUri := ""
  sourceResourceId := ""
  storageAccountId := ""
  imageReferenceId := ""
  galleryImageReferenceId := ""
  uploadSizeBytes := 0
  encryptionSettings := none
  diskEncryptionSetId := ""
  networkAccessPolicy := "AllowAll"
  diskAccessId := ""
  publicNetworkAccessEnabled := true
  tier := ""
  trustedLaunchEnabled := false
  securityType := ""
  secureVMDiskEncryptionSetId := ""
  onDemandBurstingEnabled := false
  hyperVGeneration := none
  edgeZone := ""
  zone := none
  ch := { diskIopsRW := false, diskMbpsRW := false, diskIopsRO := false,
          diskMbpsRO := false, logicalSectorSize := false,
          diskAccessId := false }

/-- A benign create environment: new resource not found remotely, every
oracle succeeds. -/
def createEnv0 : CreateEnv where
  isNew := true
  existing := .notFound
  desEncryptionType := .ok "EncryptionAtRestWithCustomerKey"
  createPollOk := true
  getAfter := .okSome
  readOk := true

/-- An update whose only diff is the tier, on a premium disk. -/
def updCfgTier : UpdateConfig :=
  { updCfg0 with
    tier := "P30"
    ch := { updChNone with tier := true } }

/-- An update environment where the disk is attached to a VM whose id
parses to the name vm-1. -/
def updEnvAttached : UpdateEnv :=
  { updEnv0 with
    getDisk := .ok ⟨some "vmid-1"⟩
    vmNameParsed := some "vm-1" }

/-- Witness for C1: a tier-only change on an attached premium disk takes the
lock on the VM name, delegates to the shutdown helper, reads back, and
unlocks. -/
theorem managed_disk_update_vm_shutdown_lock_witness :
    resourceManagedDiskUpdate updCfgTier updEnvAttached =
      ([ApiEvent.getDisk, .lockVM "vm-1", .vmShutdownUpdate, .readDisk,
        .unlockVM "vm-1"], Outcome.ok) := by
  have h := managed_disk_update_vm_shutdown_lock updCfgTier updEnvAttached
    ⟨some "vmid-1"⟩ (updPayload updCfgTier updEnvAttached) true false
    rfl rfl (by decide)
  have h2 := h.2.1 "vmid-1" "vm-1" rfl rfl rfl
  simpa using h2

/-- An UltraSSD create supplying read-only IOPS with `max_shares` unset. -/
def createCfgReadOnly : CreateConfig :=
  { createCfg0 with
    storageAccountType := "UltraSSD_LRS"
    diskIopsRO := some 5 }

/-- An UltraSSD update changing read-only IOPS with `max_shares` unset. -/
def updCfgReadOnly : UpdateConfig :=
  { updCfg0 with
    storageAccountType := "UltraSSD_LRS"
    ch := { updChNone with diskIopsRO := true } }

/-- Witness for C3: both the create and the update reject the read-only IOPS
value without shared-disk mode, sending nothing. -/
theorem managed_disk_read_only_requires_shares_witness :
    (∃ e, resourceManagedDiskCreate createCfgReadOnly createEnv0 =
      ⟨[ApiEvent.existingGet], .fail e, false⟩) ∧
    (∃ e, resourceManagedDiskUpdate updCfgReadOnly updEnv0 =
      ([ApiEvent.getDisk], .fail e)) := by
  have h := managed_disk_read_only_requires_shares createCfgReadOnly createEnv0
    updCfgReadOnly updEnv0 ⟨none⟩
  constructor
  · obtain ⟨e, he⟩ := h.1 (fun _ => rfl) (by decide) rfl (Or.inl (by decide))
    exact ⟨e, by simpa using he⟩
  · exact h.2 rfl rfl (by decide) rfl (Or.inl rfl)

/-- An update changing the tier on a standard SKU. -/
def updCfgTierStandard : UpdateConfig :=
  { updCfg0 with
    storageAccountType := "Standard_LRS"
    tier := "P4"
    ch := { updChNone with tier := true } }

/-- A premium create supplying a tier. -/
def createCfgTierPremium : CreateConfig :=
  { createCfg0 with
    storageAccountType := "Premium_LRS"
    tier := "P30" }

/-- Witness for C4: a tier change on a standard SKU fails the update with the
tier error, and a premium create carries the tier in the request body. -/
theorem managed_disk_tier_requires_premium_witness :
    resourceManagedDiskUpdate updCfgTierStandard updEnv0 =
      ([ApiEvent.getDisk], .fail .tierRequiresPremium) ∧
    (createDiskBody createCfgTierPremium createEnv0).Properties.Tier =
      some "P30" := by
  have h := managed_disk_tier_requires_premium createCfgTierPremium createEnv0
    (createDiskBody createCfgTierPremium createEnv0) updCfgTierStandard updEnv0
    ⟨none⟩ (updPayload updCfgTierStandard updEnv0) false false
  constructor
  · exact h.2.2.1 rfl (by decide) (by decide) rfl rfl
  · exact (h.2.1 (by decide) (by decide)).1

/-- An update shrinking the disk from 100 GB to 50 GB. -/
def updCfgShrink : UpdateConfig :=
  { updCfg0 with
    diskSizeGBOld := 100
    diskSizeGBNew := 50
    ch := { updChNone with diskSizeGB := true } }

/-- An update growing the disk from 100 GB to 200 GB. -/
def updCfgGrow : UpdateConfig :=
  { updCfg0 with
    diskSizeGBOld := 100
    diskSizeGBNew := 200
    ch := { updChNone with diskSizeGB := true } }

/-- Witness for C5: the shrinking update errors with nothing sent, and the
growing update forwards the new size in the payload. -/
theorem managed_disk_update_no_shrink_witness :
    (∃ e, resourceManagedDiskUpdate updCfgShrink updEnv0 =
      ([ApiEvent.getDisk], .fail e)) ∧
    (updPayload updCfgGrow updEnv0).Properties.DiskSizeGB = some 200 := by
  constructor
  · exact (managed_disk_update_no_shrink updCfgShrink updEnv0 ⟨none⟩
      (updPayload updCfgShrink updEnv0) false false).1 rfl (by decide) rfl rfl
  · exact ((managed_disk_update_no_shrink updCfgGrow updEnv0 ⟨none⟩
      (updPayload updCfgGrow updEnv0) true false).2 (by decide) rfl).2

/-- Witness for C7: the benign create submits once, reads back, sets the id
and delegates to read. -/
theorem managed_disk_create_poll_then_read_witness :
    (resourceManagedDiskCreate createCfg0 createEnv0).trace.count
      .createOrUpdatePoll = 1 ∧
    resourceManagedDiskCreate createCfg0 createEnv0 =
      ⟨[ApiEvent.existingGet, .createOrUpdatePoll, .getDisk, .readDisk],
       Outcome.ok, true⟩ := by
  have h := managed_disk_create_poll_then_read createCfg0 createEnv0
    (createDiskBody createCfg0 createEnv0) (by decide) (fun _ => rfl)
  refine ⟨h.1, ?_⟩
  have h2 := h.2.2.2.2 rfl rfl
  simpa using h2

/-- An update reverting the disk encryption set to the empty string. -/
def updCfgCmkRevert : UpdateConfig :=
  { updCfg0 with
    ch := { updChNone with diskEncryptionSetId := true } }

/-- An update changing the disk encryption set to a non-empty id. -/
def updCfgCmkSet : UpdateConfig :=
  { updCfg0 with
    diskEncryptionSetId := "des-1"
    ch := { updChNone with diskEncryptionSetId := true } }

/-- Witness for C8: reverting to the empty id errors with nothing sent, and
setting a new id resolves the encryption type into the payload. -/
theorem managed_disk_update_cmk_not_revertible_witness :
    (∃ e, resourceManagedDiskUpdate updCfgCmkRevert updEnv0 =
      ([ApiEvent.getDisk], .fail e)) ∧
    (∃ t, updEnv0.desEncryptionType = .ok t ∧
      (updPayload updCfgCmkSet updEnv0).Properties.Encryption =
        some ⟨some t, some "des-1"⟩) := by
  constructor
  · exact (managed_disk_update_cmk_not_revertible updCfgCmkRevert updEnv0
      ⟨none⟩ (updPayload updCfgCmkRevert updEnv0) true false).1
      rfl rfl rfl rfl
  · exact ((managed_disk_update_cmk_not_revertible updCfgCmkSet updEnv0
      ⟨none⟩ (updPayload updCfgCmkSet updEnv0) true false).2
      (by decide) rfl).2.1

/-- Witness for C9: on the no-diff update, every conditional payload field
stays nil. -/
theorem managed_disk_update_payload_frame_witness :
    (updPayload updCfg0 updEnv0).Tags = none ∧
    (updPayload updCfg0 updEnv0).Sku = none ∧
    (updPayload updCfg0 updEnv0).Properties.Tier = none := by
  have h := managed_disk_update_payload_frame updCfg0 updEnv0
    (updPayload updCfg0 updEnv0) (updShouldShutDown updCfg0 updEnv0)
    (updShouldDetach updCfg0 updEnv0) (by decide)
  exact ⟨h.1 rfl, h.2.2.1 rfl rfl, h.2.2.2.1 rfl⟩
